import Mathlib

/-!
Shallow embedding of the `puddle` core (grid state manager, router, action
translator) from `src/core/src/grid/gridview.rs` and `src/core/src/plan/route.rs`.

Machine integers (`i32`, `u32`, `usize`) are modelled as `Int`/`Nat`; the values
involved never approach the overflow range.  `f64` droplet volumes are modelled
as `ℚ`; claims that depend on IEEE rounding are outside this embedding.
Rust panics (`assert!`, `expect`, index out of bounds) are modelled with
`Option`: `none` is a panic/abort.
-/

namespace Puddle

/-- Modelled from the spec: `Location` (grid/location.rs is not in src/) is an
integer cell coordinate `(y, x)`. -/
structure Location where
  y : Int
  x : Int
deriving DecidableEq, Repr

/-- Modelled from the spec: `Location::distance_to` (grid/location.rs is not in
src/) is the Manhattan (ℓ¹) distance. -/
def Location.distance_to (a b : Location) : Nat :=
  (a.y - b.y).natAbs + (a.x - b.x).natAbs

/-- `DropletId` from the source: a pair of a local id and a process id
(both modelled as `Nat`). -/
structure DropletId where
  id : Nat
  process_id : Nat
deriving DecidableEq, Repr

/-- `Droplet` fields as used by gridview.rs and route.rs; the Rust `f64` volume
is modelled as `ℚ`. -/
structure Droplet where
  id : DropletId
  location : Location
  dimensions : Location
  volume : ℚ
  destination : Option Location
  collision_group : Nat
deriving DecidableEq, Repr

/-- Modelled from the spec: `Droplet::new` (grid/droplet.rs is not in src/).
Per the spec, droplets created through actions get the given id, volume,
location and dimensions and no destination.  The collision-group assignment of
a fresh droplet is not specified; it is modelled as 0.  No claim in this
development depends on that choice. -/
def Droplet.new (id : DropletId) (volume : ℚ) (location : Location)
    (dimensions : Location) : Droplet :=
  { id := id, location := location, dimensions := dimensions, volume := volume,
    destination := none, collision_group := 0 }

/-- Modelled from the spec: the raw footprint `Droplet::get_locations`
(grid/droplet.rs is not in src/): the cells of the rectangle anchored at
`loc` with extent `dims`. -/
def Droplet.get_locations (loc dims : Location) : List Location :=
  (List.range dims.y.toNat).flatMap (fun dy =>
    (List.range dims.x.toNat).map (fun dx =>
      { y := loc.y + dy, x := loc.x + dx }))

/-- Modelled from the spec: `Grid` (grid/grid.rs is not in src/) is the set of
valid cells plus adjacency; modelled as the list of valid cells. -/
structure Grid where
  cells : List Location
deriving DecidableEq, Repr

/-- Modelled from the spec: `Grid::neighbors4` — the at most 4 cardinal
neighbors of `loc` that exist in the grid.  The enumeration order of the
candidates is not specified; it is modelled as up, down, left, right. -/
def Grid.neighbors4 (g : Grid) (loc : Location) : List Location :=
  ([ { y := loc.y - 1, x := loc.x }, { y := loc.y + 1, x := loc.x },
     { y := loc.y, x := loc.x - 1 }, { y := loc.y, x := loc.x + 1 } ] : List Location).filter
    (fun c => decide (c ∈ g.cells))

/-- Modelled from the spec: `Grid::neighbors_dimensions` — the inflated
rectangular footprint of a droplet of extent `dims` anchored at `loc`: the
occupied rectangle plus its 1-cell halo, restricted to valid grid cells. -/
def Grid.neighbors_dimensions (g : Grid) (loc dims : Location) : List Location :=
  g.cells.filter (fun c =>
    decide (loc.y - 1 ≤ c.y ∧ c.y ≤ loc.y + dims.y ∧
            loc.x - 1 ≤ c.x ∧ c.x ≤ loc.x + dims.x))

/-- Modelled from the spec: `Grid::locations().count()` — the number of valid
cells. -/
def Grid.locationsCount (g : Grid) : Nat := g.cells.length

/- Association-list model of `util::collections::Map` (not in src/): a finite
map with unique keys, iterated in insertion order. -/

/-- Map lookup: value at the first occurrence of the key. -/
def alookup {α β : Type} [DecidableEq α] : List (α × β) → α → Option β
  | [], _ => none
  | (k, v) :: rest, key => if k = key then some v else alookup rest key

/-- Map removal: value at the key together with the list without that entry
(`Map::remove`); `none` when the key is absent. -/
def aremove {α β : Type} [DecidableEq α] : List (α × β) → α → Option (β × List (α × β))
  | [], _ => none
  | (k, v) :: rest, key =>
    if k = key then some (v, rest)
    else (aremove rest key).map (fun p => (p.1, (k, v) :: p.2))

/-- Map insertion with overwrite (`Map::insert` for maps that may already hold
the key): replaces the value at the key, or appends a fresh entry. -/
def ainsert {α β : Type} [DecidableEq α] : List (α × β) → α → β → List (α × β)
  | [], key, val => [(key, val)]
  | (k, v) :: rest, key, val =>
    if k = key then (key, val) :: rest else (k, v) :: ainsert rest key val

/-- The action variants handled by `GridView::execute` (exec/action.rs is not
in src/; the variants and their fields are exactly those matched in
gridview.rs).  `Ping`'s payload is irrelevant to the core and omitted. -/
inductive Action where
  | AddDroplet (id : DropletId) (location : Location) (dimensions : Location) (volume : ℚ)
  | RemoveDroplet (id : DropletId)
  | Mix (in0 in1 out : DropletId)
  | Split (inp out0 out1 : DropletId)
  | UpdateDroplet (old_id new_id : DropletId)
  | MoveDroplet (id : DropletId) (location : Location)
  | Tick
  | Ping
deriving DecidableEq, Repr

/-- `GridView` from gridview.rs.  The `IsaacRng` seeded from the constant 0 is
modelled by `rngIndex`, the number of samples drawn so far: the sample stream
itself is a fixed function of the standard deviation and this index (see
`execute`'s `sampleFn` parameter).  `split_error_stdev: Option<Normal>` is
modelled by the optional standard deviation. -/
structure GridView where
  grid : Grid
  droplets : List (DropletId × Droplet)
  rngIndex : Nat
  split_error_stdev : Option ℚ
deriving DecidableEq, Repr

/-- `ErrorOptions` from gridview.rs. -/
structure ErrorOptions where
  split_error_stdev : ℚ
deriving DecidableEq, Repr

/-- `GridView::new`: empty droplet map, rng seeded from the constant 0
(modelled as sample index 0), and the split-noise distribution built from the
configured standard deviation. -/
def GridView.new (grid : Grid) (opts : ErrorOptions) : GridView :=
  { grid := grid, droplets := [], rngIndex := 0,
    split_error_stdev := some opts.split_error_stdev }

/-- `GridView::get_collision`: scan ordered pairs of distinct droplets with
different collision groups; report the first pair whose inflated footprint of
the first meets the raw footprint of the second.  The map iteration order is
the insertion order of the association list. -/
def GridView.get_collision (gv : GridView) : Option (DropletId × DropletId) :=
  gv.droplets.findSome? (fun p1 =>
    gv.droplets.findSome? (fun p2 =>
      if p1.1 = p2.1 then none
      else if p1.2.collision_group = p2.2.collision_group then none
      else if (gv.grid.neighbors_dimensions p1.2.location p1.2.dimensions).any
          (fun loc => decide (loc ∈ Droplet.get_locations p2.2.location p2.2.dimensions))
        then some (p1.1, p2.1)
        else none))

/-- `GridView::insert`: inserts keyed by the droplet's id; the source asserts
that the id was not already present (`none` models that panic). -/
def GridView.insert (gv : GridView) (droplet : Droplet) : Option GridView :=
  match alookup gv.droplets droplet.id with
  | some _ => none
  | none => some { gv with droplets := gv.droplets ++ [(droplet.id, droplet)] }

/-- `GridView::remove`: removes and returns the droplet; the source panics
when the id is absent (`none`). -/
def GridView.remove (gv : GridView) (id : DropletId) : Option (Droplet × GridView) :=
  (aremove gv.droplets id).map (fun p => (p.1, { gv with droplets := p.2 }))

/-- `GridView::execute`.  `sampleFn σ i` is the `i`-th sample of
`Normal(0, σ)` drawn through the fixed-seed rng; since the rng is seeded from
the constant 0, this stream is a fixed function of the configuration, which
the theorems quantify over.  `none` models a panic. -/
def GridView.execute (sampleFn : ℚ → Nat → ℚ) (gv : GridView) (action : Action) :
    Option GridView :=
  match action with
  | .AddDroplet id location dimensions volume =>
    gv.insert (Droplet.new id volume location dimensions)
  | .RemoveDroplet id => (gv.remove id).map (fun p => p.2)
  | .Mix in0 in1 out =>
    (gv.remove in0).bind (fun pr0 =>
      (pr0.2.remove in1).bind (fun pr1 =>
        let vol := pr0.1.volume + pr1.1.volume
        if pr0.1.location = pr1.1.location then
          pr1.2.insert (Droplet.new out vol pr0.1.location { y := 1, x := 1 })
        else none))
  | .Split inp out0 out1 =>
    (gv.remove inp).bind (fun pr =>
      let d := pr.1
      let vol := d.volume / 2
      -- create the error and clamp it: sample.min(volume).max(-volume)
      let errAndIndex : ℚ × Nat :=
        match pr.2.split_error_stdev with
        | none => (0, pr.2.rngIndex)
        | some σ => (max (min (sampleFn σ pr.2.rngIndex) d.volume) (-d.volume),
                     pr.2.rngIndex + 1)
      let vol0 := vol - errAndIndex.1
      let vol1 := vol + errAndIndex.1
      let gv2 := { pr.2 with rngIndex := errAndIndex.2 }
      (gv2.insert (Droplet.new out0 vol0 d.location { y := 1, x := 1 })).bind
        (fun gv3 => gv3.insert (Droplet.new out1 vol1 d.location { y := 1, x := 1 })))
  | .UpdateDroplet old_id new_id =>
    match gv.remove old_id with
    | none => none
    | some (d, gv1) => gv1.insert { d with id := new_id }
  | .MoveDroplet id location =>
    match alookup gv.droplets id with
    | none => none
    | some droplet =>
      if droplet.location.distance_to location ≤ 1 then
        some { gv with droplets := ainsert gv.droplets id { droplet with location := location } }
      else none
  | .Tick =>
    match gv.get_collision with
    | none => some gv
    | some _ => none
  | .Ping => some gv

/-- Executing a whole action stream; the first panic aborts the run. -/
def GridView.executeAll (sampleFn : ℚ → Nat → ℚ) (gv : GridView) :
    List Action → Option GridView
  | [] => some gv
  | a :: rest =>
    match gv.execute sampleFn a with
    | none => none
    | some gv1 => gv1.executeAll sampleFn rest

/-! Router (plan/route.rs). -/

/-- A `Path` is an ordered list of locations (plan/route.rs). -/
def Path := List Location
deriving DecidableEq, Repr

/-- `Node` from plan/route.rs: a location at a tick. -/
structure Node where
  location : Location
  time : Nat
deriving DecidableEq, Repr

/-- `build_path` from plan/route.rs: walk `came_from` backwards from the end
node, collecting locations; each step removes the traversed entry from the
map (which is what makes the Rust `while let` terminate).  The recursion is
bounded by an explicit fuel, set by `build_path` to `came_from.length + 1`,
which always suffices: every iteration removes one entry, so after
`came_from.length` steps the map is empty and the removal fails.  The source
pushes each location and reverses at the end; consing onto the accumulator
realizes the same list. -/
def build_pathGo : Nat → List (Node × Node) → Node → List Location → Path
  | 0, _, current, acc => current.location :: acc
  | fuel + 1, came_from, current, acc =>
    match aremove came_from current with
    | none => current.location :: acc
    | some (prev, rest) => build_pathGo fuel rest prev (current.location :: acc)

/-- `build_path` wrapper. -/
def build_path (came_from : List (Node × Node)) (end_node : Node) : Path :=
  build_pathGo (came_from.length + 1) came_from end_node []

/-- `paths_to_actions` from plan/route.rs: for each tick index below the
maximum path length, push one `MoveDroplet` per droplet whose path is still
live at that index, then push one `Tick`. -/
def paths_to_actions (paths : List (DropletId × Path)) : List Action :=
  let max_len := ((paths.map (fun p => p.2.length)).max?).getD 0
  (List.range max_len).foldl
    (fun acts i =>
      (paths.foldl
        (fun acts p =>
          if h : i < p.2.length then
            acts ++ [Action.MoveDroplet p.1 (p.2.get ⟨i, h⟩)]
          else acts)
        acts) ++ [Action.Tick])
    []

/-- `AvoidanceSet` from plan/route.rs.  `Set<Node>` is modelled as a list with
membership semantics (`Set::insert` dedups; consing does not, which is
observationally equal for the membership tests the code performs). -/
structure AvoidanceSet where
  max_time : Nat
  present : List Node
  finals : List (Location × Nat)
deriving DecidableEq, Repr

/-- `AvoidanceSet::default()`. -/
def AvoidanceSet.default : AvoidanceSet :=
  { max_time := 0, present := [], finals := [] }

/-- `AvoidanceSet::collides`: the node is in `present`. -/
def AvoidanceSet.collides (af : AvoidanceSet) (node : Node) : Bool :=
  af.present.any (fun n => decide (n = node))

/-- `AvoidanceSet::collides_with_final`: the node's location has a finals
entry whose tick is at most the node's time. -/
def AvoidanceSet.collides_with_final (af : AvoidanceSet) (node : Node) : Bool :=
  match alookup af.finals node.location with
  | none => false
  | some final_t => decide (node.time ≥ final_t)

/-- `AvoidanceSet::filter`: keep only the successor nodes that neither collide
with `present` nor with `finals`. -/
def AvoidanceSet.filter (af : AvoidanceSet) (vec : List (Nat × Node)) : List (Nat × Node) :=
  vec.filter (fun cn => !af.collides cn.2 && !af.collides_with_final cn.2)

/-- `AvoidanceSet::would_finally_collide`: some tick `t` with
`node.time ≤ t < max_time` (the Rust range `node.time..self.max_time` excludes
`max_time`) has the node's location occupied in `present`. -/
def AvoidanceSet.would_finally_collide (af : AvoidanceSet) (node : Node) : Bool :=
  (List.range' node.time (af.max_time - node.time)).any
    (fun t => af.collides { location := node.location, time := t })

/-- `AvoidanceSet::avoid_node`: reserve the dimensioned footprint of the node's
location for the node's time widened by ±1 tick (negative times skipped). -/
def AvoidanceSet.avoid_node (af : AvoidanceSet) (grid : Grid) (node : Node)
    (dimensions : Location) : AvoidanceSet :=
  { af with
    present :=
      (grid.neighbors_dimensions node.location dimensions).foldl
        (fun pr loc =>
          (([-1, 0, 1] : List Int)).foldl
            (fun pr t =>
              let time := (node.time : Int) + t
              if time < 0 then pr
              else { location := loc, time := time.toNat } :: pr)
            pr)
        af.present }

/-- `AvoidanceSet::avoid_path`: reserve every node of the path (with its
spatial and temporal halo), record the final cell's inflated footprint in
`finals` at the parking tick, and raise `max_time`.  The source indexes
`path[path.len() - 1]`, which panics on an empty path; the paths produced by
`build_path` are never empty, and the empty case is modelled as a no-op. -/
def AvoidanceSet.avoid_path (af : AvoidanceSet) (path : Path) (grid : Grid)
    (droplet_dimensions : Location) : AvoidanceSet :=
  let af1 := (path.enum).foldl
    (fun af p => af.avoid_node grid { location := p.2, time := p.1 } droplet_dimensions)
    af
  match path.getLast? with
  | none => af1
  | some lastLoc =>
    let last := path.length - 1
    let af2 := { af1 with
      finals := (grid.neighbors_dimensions lastLoc droplet_dimensions).foldl
        (fun f loc => ainsert f loc last) af1.finals }
    { af2 with max_time := max af2.max_time last }

/-- `Node::expand`: the four cardinal moves at cost 100 plus the wait at
cost 1, all at the next tick. -/
def Node.expand (n : Node) (grid : Grid) : List (Nat × Node) :=
  ((grid.neighbors4 n.location).map
    (fun location => (100, ({ location := location, time := n.time + 1 } : Node)))) ++
  [(1, { location := n.location, time := n.time + 1 })]

/-- Modelled from the spec: `MinHeap` (plan/minheap.rs is not in src/): pop
removes an entry with minimal key.  The order among entries with equal keys is
not specified; the earliest-pushed minimal entry is modelled as popped first. -/
def popMin : List (Nat × Node) → Option ((Nat × Node) × List (Nat × Node))
  | [] => none
  | x :: xs =>
    match popMin xs with
    | none => some (x, [])
    | some (m, rest) => if x.1 ≤ m.1 then some (x, xs) else some (m, x :: rest)

/-- `MinHeap::push`. -/
def pushHeap (h : List (Nat × Node)) (cost : Nat) (node : Node) : List (Nat × Node) :=
  h ++ [(cost, node)]

/-- The `while let` loop of `route_one` (plan/route.rs), as a fuel recursion:
`fuel` bounds the number of loop iterations, and exhausting it yields `none`
(the Rust loop has no such bound; every concrete run below is evaluated with
visibly sufficient fuel).  State: the open heap `todo`, `best_so_far`,
`came_from`, and the closed set `done`.  A popped node that satisfies the goal
ends the search; an already-closed or over-horizon node is skipped (the node
is entered into `done` before the horizon test, as in the source); otherwise
the node is expanded and each successor is relaxed and re-pushed. -/
def route_oneLoop (dest : Location) (max_time : Nat)
    (next_fn : Node → List (Nat × Node)) (done_fn : Node → Bool) :
    Nat → List (Nat × Node) → List (Node × Nat) → List (Node × Node) → List Node →
    Option Path
  | 0, _, _, _, _ => none
  | fuel + 1, todo, best_so_far, came_from, done =>
    match popMin todo with
    | none => none
    | some (cn, todo1) =>
      let node := cn.2
      if done_fn node then some (build_path came_from node)
      else if decide (node ∈ done) then
        route_oneLoop dest max_time next_fn done_fn fuel todo1 best_so_far came_from done
      else
        let done1 := node :: done
        if node.time > max_time then
          route_oneLoop dest max_time next_fn done_fn fuel todo1 best_so_far came_from done1
        else
          match alookup best_so_far node with
          | none => none
          | some node_cost =>
            let st := (next_fn node).foldl
              (fun (st : List (Nat × Node) × List (Node × Nat) × List (Node × Node)) en =>
                if decide (en.2 ∈ done1) then st
                else
                  let proposed := node_cost + en.1
                  match alookup st.2.1 en.2 with
                  | some old_cost =>
                    if proposed < old_cost then
                      (pushHeap st.1 (proposed + dest.distance_to en.2.location) en.2,
                       ainsert st.2.1 en.2 proposed, ainsert st.2.2 en.2 node)
                    else
                      (pushHeap st.1 (old_cost + dest.distance_to en.2.location) en.2,
                       st.2.1, st.2.2)
                  | none =>
                    (pushHeap st.1 (proposed + dest.distance_to en.2.location) en.2,
                     ainsert st.2.1 en.2 proposed, ainsert st.2.2 en.2 node))
              (todo1, best_so_far, came_from)
            route_oneLoop dest max_time next_fn done_fn fuel st.1 st.2.1 st.2.2 done1

/-- `route_one` from plan/route.rs: time-expanded A* from the droplet's
location at tick 0 towards its destination (or its own location when it has
none), with the Manhattan distance to the destination as heuristic. -/
def route_one (droplet : Droplet) (max_time : Nat)
    (next_fn : Node → List (Nat × Node)) (done_fn : Node → Bool) (fuel : Nat) :
    Option Path :=
  let start_node : Node := { location := droplet.location, time := 0 }
  let dest :=
    match droplet.destination with
    | some x => x
    | none => droplet.location
  route_oneLoop dest max_time next_fn done_fn fuel
    [(0, start_node)] [(start_node, 0)] [] []

/-- The successor closure `route_many` passes to `route_one`:
`av_set.filter(node.expand(grid))`. -/
def routeNextFn (av_set : AvoidanceSet) (grid : Grid) (node : Node) : List (Nat × Node) :=
  av_set.filter (node.expand grid)

/-- The goal closure `route_many` passes to `route_one`: the node's location
is the droplet's destination (its own location when it has none) and the node
would not finally collide. -/
def routeDoneFn (av_set : AvoidanceSet) (droplet : Droplet) (node : Node) : Bool :=
  decide (node.location =
    (match droplet.destination with
     | some x => x
     | none => droplet.location)) &&
  !av_set.would_finally_collide node

/-- The per-droplet loop of `route_many` (plan/route.rs): route each droplet
with horizon `num_cells + max_t` against the accumulated avoidance set; on
success fold the path into the avoidance set, raise `max_t` to the maximum
path length seen, and record the path under the droplet's map key (the
insertion-ordered map is built by consing the head entry onto the recursive
result).  Any single failure fails the whole attempt. -/
def route_manyGo (grid : Grid) (fuel : Nat) (num_cells : Nat) :
    List (DropletId × Droplet) → AvoidanceSet → Nat → Option (List (DropletId × Path))
  | [], _av_set, _max_t => some []
  | (id, droplet) :: rest, av_set, max_t =>
    (route_one droplet (num_cells + max_t) (routeNextFn av_set grid)
        (routeDoneFn av_set droplet) fuel).bind
      (fun path =>
        (route_manyGo grid fuel num_cells rest
            (av_set.avoid_path path grid droplet.dimensions)
            (max max_t path.length)).map
          (fun paths => (id, path) :: paths))

/-- `route_many` from plan/route.rs. -/
def route_many (droplets : List (DropletId × Droplet)) (grid : Grid) (fuel : Nat) :
    Option (List (DropletId × Path)) :=
  route_manyGo grid fuel grid.locationsCount droplets AvoidanceSet.default 0

/-- Instrumented twin of `route_manyGo`: the same recursion, additionally
returning the horizon (`num_cells + max_t`) that was passed to `route_one`
for each droplet, in routing order. -/
def route_manyGoT (grid : Grid) (fuel : Nat) (num_cells : Nat) :
    List (DropletId × Droplet) → AvoidanceSet → Nat →
    Option (List (DropletId × Path) × List Nat)
  | [], _av_set, _max_t => some ([], [])
  | (id, droplet) :: rest, av_set, max_t =>
    (route_one droplet (num_cells + max_t) (routeNextFn av_set grid)
        (routeDoneFn av_set droplet) fuel).bind
      (fun path =>
        (route_manyGoT grid fuel num_cells rest
            (av_set.avoid_path path grid droplet.dimensions)
            (max max_t path.length)).map
          (fun pr => ((id, path) :: pr.1, (num_cells + max_t) :: pr.2)))

/-- Instrumented twin of `route_many`. -/
def route_manyT (droplets : List (DropletId × Droplet)) (grid : Grid) (fuel : Nat) :
    Option (List (DropletId × Path) × List Nat) :=
  route_manyGoT grid fuel grid.locationsCount droplets AvoidanceSet.default 0

/-- The retry loop of `GridView::route` (plan/route.rs).  The thread-local,
non-seeded rng used by `rng.shuffle(&mut droplets)` is modelled by the
`shuffle` parameter: the reordering the rng produces at iteration `i`,
applied to the current vector (the source shuffles in place, so successive
shuffles compose). -/
def routeGo (grid : Grid)
    (shuffle : Nat → List (DropletId × Droplet) → List (DropletId × Droplet))
    (fuel : Nat) :
    List Nat → List (DropletId × Droplet) → Option (List (DropletId × Path))
  | [], _droplets => none
  | i :: rest, droplets =>
    let droplets1 := shuffle i droplets
    match route_many droplets1 grid fuel with
    | some result => some result
    | none => routeGo grid shuffle fuel rest droplets1

/-- `GridView::route`: `for i in 1..50` — the iteration indices are
`1, …, 49`. -/
def GridView.route (gv : GridView)
    (shuffle : Nat → List (DropletId × Droplet) → List (DropletId × Droplet))
    (fuel : Nat) : Option (List (DropletId × Path)) :=
  routeGo gv.grid shuffle fuel (List.range' 1 49) gv.droplets

/-- Instrumented twin of `routeGo`: additionally counts how many
`route_many` attempts were made. -/
def routeGoCount (grid : Grid)
    (shuffle : Nat → List (DropletId × Droplet) → List (DropletId × Droplet))
    (fuel : Nat) :
    List Nat → List (DropletId × Droplet) → Option (List (DropletId × Path)) × Nat
  | [], _droplets => (none, 0)
  | i :: rest, droplets =>
    let droplets1 := shuffle i droplets
    match route_many droplets1 grid fuel with
    | some result => (some result, 1)
    | none =>
      let r := routeGoCount grid shuffle fuel rest droplets1
      (r.1, r.2 + 1)

/-- Instrumented twin of `GridView.route`. -/
def GridView.routeCount (gv : GridView)
    (shuffle : Nat → List (DropletId × Droplet) → List (DropletId × Droplet))
    (fuel : Nat) : Option (List (DropletId × Path)) × Nat :=
  routeGoCount gv.grid shuffle fuel (List.range' 1 49) gv.droplets

/-! Statement apparatus: horizon sequences, iterated shuffles, and the
concrete instances used by counterexamples and witnesses. -/

/-- The horizon sequence `route_many` produces: for each routed droplet,
`num_cells` plus the running maximum of the lengths of the previously routed
paths (`max_t`, initially 0). -/
def runningMaxHorizons (num_cells : Nat) : Nat → List Nat → List Nat
  | _max_t, [] => []
  | max_t, l :: ls => (num_cells + max_t) :: runningMaxHorizons num_cells (max max_t l) ls

/-- The horizon sequence the spec describes: for each routed droplet,
`num_cells` plus the *sum* of the lengths of the previously routed paths.
Stated from the spec's words, for comparison with the code's sequence. -/
def sumHorizons (num_cells : Nat) : Nat → List Nat → List Nat
  | _acc, [] => []
  | acc, l :: ls => (num_cells + acc) :: sumHorizons num_cells (acc + l) ls

/-- The droplet order used by retry `i` of `GridView.route`: the composition
of the first `i` shuffles applied to the initial order (the source shuffles
the vector in place, so reorderings accumulate). -/
def iterShuffle
    (shuffle : Nat → List (DropletId × Droplet) → List (DropletId × Droplet))
    (droplets : List (DropletId × Droplet)) (i : Nat) :
    List (DropletId × Droplet) :=
  (List.range' 1 i).foldl (fun acc j => shuffle j acc) droplets

/-- A 1×7 corridor grid. -/
def grid7 : Grid := { cells := (List.range 7).map (fun x => { y := 0, x := x }) }

/-- A parked droplet (no destination) for the `route_many` instances. -/
def parkedDroplet (n : Nat) (x : Int) : DropletId × Droplet :=
  ({ id := n, process_id := 0 },
   { id := { id := n, process_id := 0 }, location := { y := 0, x := x },
     dimensions := { y := 1, x := 1 }, volume := 1,
     destination := none, collision_group := n })

/-- Three parked droplets spaced along the corridor: all three route to their
own cells with paths of length 1. -/
def dropletsC3 : List (DropletId × Droplet) :=
  [parkedDroplet 0 0, parkedDroplet 1 3, parkedDroplet 2 6]

/-- The paths `route_many` produces for `dropletsC3`: each parked droplet
routes to its own cell with a path of length 1. -/
def psC3 : List (DropletId × Path) :=
  [((parkedDroplet 0 0).1, [{ y := 0, x := 0 }]),
   ((parkedDroplet 1 3).1, [{ y := 0, x := 3 }]),
   ((parkedDroplet 2 6).1, [{ y := 0, x := 6 }])]

/-- A grid of two cells that are not adjacent: no droplet can move between
them, so routing a droplet from one to the other fails on every attempt. -/
def gridC4 : Grid := { cells := [{ y := 0, x := 0 }, { y := 0, x := 2 }] }

/-- A `GridView` holding one droplet at `(0,0)` destined for the unreachable
cell `(0,2)`. -/
def gvC4 : GridView :=
  { grid := gridC4,
    droplets := [({ id := 0, process_id := 0 },
      { id := { id := 0, process_id := 0 }, location := { y := 0, x := 0 },
        dimensions := { y := 1, x := 1 }, volume := 1,
        destination := some { y := 0, x := 2 }, collision_group := 0 })],
    rngIndex := 0, split_error_stdev := some 0 }

/-- A droplet of volume 4, the split input of the C1 instances. -/
def dC1 : Droplet :=
  { id := { id := 5, process_id := 0 }, location := { y := 0, x := 0 },
    dimensions := { y := 1, x := 1 }, volume := 4,
    destination := none, collision_group := 0 }

/-- A `GridView` holding one droplet of volume 4, with split-noise standard
deviation 100 configured. -/
def gvC1 : GridView :=
  { grid := { cells := [{ y := 0, x := 0 }] },
    droplets := [(dC1.id, dC1)],
    rngIndex := 0, split_error_stdev := some 100 }

/-- The state `gvC1` reaches after `Split` with a sampled error of 10:
the clamp yields ε = 4, so the outputs carry volumes −2 and 6. -/
def gvC1res : GridView :=
  { grid := gvC1.grid,
    droplets := [({ id := 6, process_id := 0 },
        Droplet.new { id := 6, process_id := 0 } (-2) { y := 0, x := 0 } { y := 1, x := 1 }),
      ({ id := 7, process_id := 0 },
        Droplet.new { id := 7, process_id := 0 } 6 { y := 0, x := 0 } { y := 1, x := 1 })],
    rngIndex := 1, split_error_stdev := some 100 }

/-- The avoidance set after reserving the single-cell path `[(0,0)]` on the
corridor grid: `max_time = 0` and `(0,0)` is occupied in `present` at tick 0. -/
def avC2 : AvoidanceSet :=
  AvoidanceSet.default.avoid_path [{ y := 0, x := 0 }] grid7 { y := 1, x := 1 }

/-- A droplet sitting at `(0,0)` with no destination, whose goal cell is
therefore `(0,0)`. -/
def dropC2 : Droplet :=
  { id := { id := 9, process_id := 0 }, location := { y := 0, x := 0 },
    dimensions := { y := 1, x := 1 }, volume := 1,
    destination := none, collision_group := 9 }

/-- The node the single-droplet search starts (and, here, ends) at: the
droplet's cell at tick 0, which equals `avC2.max_time`. -/
def nodeC2 : Node := { location := { y := 0, x := 0 }, time := 0 }

/-- A droplet of volume 2 parked at the corridor's left end. -/
def dropOne : Droplet :=
  { id := { id := 3, process_id := 0 }, location := { y := 0, x := 0 },
    dimensions := { y := 1, x := 1 }, volume := 2,
    destination := none, collision_group := 0 }

/-- A `GridView` holding only `dropOne`, used by the `MoveDroplet`, `Mix` and
determinism witnesses. -/
def gvOne : GridView :=
  { grid := grid7, droplets := [(dropOne.id, dropOne)],
    rngIndex := 0, split_error_stdev := some 0 }

/-- The state expected after moving `dropOne` one cell to the right. -/
def gvOneMoved : GridView :=
  { gvOne with droplets := ainsert gvOne.droplets dropOne.id ({ dropOne with location := { y := 0, x := 1 } }) }

/-! Helper lemmas about the association-list map model. -/

theorem alookup_of_aremove {α β : Type} [DecidableEq α] :
    ∀ (m : List (α × β)) (k : α) (v : β) (rest : List (α × β)),
      aremove m k = some (v, rest) → alookup m k = some v := by
  intro m
  induction m with
  | nil => intro k v rest h; simp [aremove] at h
  | cons p m ih =>
    rcases p with ⟨k0, v0⟩
    intro k v rest h
    simp only [aremove] at h
    simp only [alookup]
    by_cases hk : k0 = k
    · rw [if_pos hk] at h
      rw [if_pos hk]
      simp only [Option.some_inj, Prod.mk.injEq] at h
      rw [h.1]
    · rw [if_neg hk] at h
      rw [if_neg hk]
      rcases Option.map_eq_some'.mp h with ⟨pr, hrm, heq⟩
      rcases pr with ⟨v1, rest1⟩
      have hv : v1 = v := congrArg Prod.fst heq
      subst hv
      exact ih k v1 rest1 hrm

theorem aremove_eq_none_of_alookup {α β : Type} [DecidableEq α] :
    ∀ (m : List (α × β)) (k : α), alookup m k = none → aremove m k = none := by
  intro m
  induction m with
  | nil => intro k _; simp [aremove]
  | cons p m ih =>
    rcases p with ⟨k0, v0⟩
    intro k h
    simp only [alookup] at h
    by_cases hk : k0 = k
    · simp [hk] at h
    · simp only [hk, if_false] at h
      simp [aremove, hk, ih k h]

theorem alookup_eq_none_of_aremove {α β : Type} [DecidableEq α] :
    ∀ (m : List (α × β)) (k : α), aremove m k = none → alookup m k = none := by
  intro m
  induction m with
  | nil => intro k _; simp [alookup]
  | cons p m ih =>
    rcases p with ⟨k0, v0⟩
    intro k h
    simp only [aremove] at h
    by_cases hk : k0 = k
    · simp [hk] at h
    · simp only [hk, if_false, Option.map_eq_none'] at h
      simp [alookup, hk, ih k h]

theorem alookup_of_not_mem_keys {α β : Type} [DecidableEq α] :
    ∀ (m : List (α × β)) (k : α), k ∉ m.map Prod.fst → alookup m k = none := by
  intro m
  induction m with
  | nil => intro k _; simp [alookup]
  | cons p m ih =>
    rcases p with ⟨k0, v0⟩
    intro k h
    simp only [List.map_cons, List.mem_cons] at h
    push_neg at h
    rw [alookup, if_neg (Ne.symm h.1)]
    exact ih k h.2

theorem alookup_none_of_aremove_nodup {α β : Type} [DecidableEq α] :
    ∀ (m : List (α × β)) (k : α) (v : β) (rest : List (α × β)),
      (m.map Prod.fst).Nodup → aremove m k = some (v, rest) → alookup rest k = none := by
  intro m
  induction m with
  | nil => intro k v rest _ h; simp [aremove] at h
  | cons p m ih =>
    rcases p with ⟨k0, v0⟩
    intro k v rest hnd h
    simp only [List.map_cons, List.nodup_cons] at hnd
    simp only [aremove] at h
    by_cases hk : k0 = k
    · simp [hk] at h
      subst hk
      rw [← h.2]
      exact alookup_of_not_mem_keys m k0 hnd.1
    · simp only [hk, if_false, Option.map_eq_some'] at h
      rcases h with ⟨⟨v1, rest1⟩, hrm, heq⟩
      cases heq
      simp only [alookup, if_neg hk]
      exact ih k v1 rest1 hnd.2 hrm

theorem alookup_append {α β : Type} [DecidableEq α] :
    ∀ (m n : List (α × β)) (k : α),
      alookup (m ++ n) k =
        match alookup m k with
        | some v => some v
        | none => alookup n k := by
  intro m
  induction m with
  | nil => intro n k; simp [alookup]
  | cons p m ih =>
    rcases p with ⟨k0, v0⟩
    intro n k
    simp only [List.cons_append, alookup]
    by_cases hk : k0 = k
    · simp [hk]
    · simp only [hk, if_false]
      exact ih n k

theorem ainsert_self {α β : Type} [DecidableEq α] :
    ∀ (m : List (α × β)) (k : α) (v : β), alookup m k = some v → ainsert m k v = m := by
  intro m
  induction m with
  | nil => intro k v h; simp [alookup] at h
  | cons p m ih =>
    rcases p with ⟨k0, v0⟩
    intro k v h
    simp only [alookup] at h
    simp only [ainsert]
    by_cases hk : k0 = k
    · simp [hk] at h ⊢
      exact h.symm
    · simp only [hk, if_false] at h ⊢
      rw [ih k v h]

theorem Droplet.new_id (id : DropletId) (v : ℚ) (l dims : Location) :
    (Droplet.new id v l dims).id = id := rfl

theorem Droplet.new_volume (id : DropletId) (v : ℚ) (l dims : Location) :
    (Droplet.new id v l dims).volume = v := rfl

theorem insert_id_absent (gv : GridView) (d : Droplet) (gv2 : GridView)
    (h : gv.insert d = some gv2) : alookup gv.droplets d.id = none := by
  unfold GridView.insert at h
  cases hl : alookup gv.droplets d.id with
  | none => rfl
  | some v =>
    rw [hl] at h
    cases h

theorem insert_droplets (gv : GridView) (d : Droplet) (gv2 : GridView)
    (h : gv.insert d = some gv2) : gv2.droplets = gv.droplets ++ [(d.id, d)] := by
  unfold GridView.insert at h
  cases hl : alookup gv.droplets d.id with
  | none =>
    rw [hl] at h
    cases h
    rfl
  | some v =>
    rw [hl] at h
    cases h

theorem insert_lookup_self (gv : GridView) (d : Droplet) (gv2 : GridView)
    (h : gv.insert d = some gv2) : alookup gv2.droplets d.id = some d := by
  rw [insert_droplets gv d gv2 h, alookup_append, insert_id_absent gv d gv2 h]
  simp [alookup]

theorem insert_lookup_other (gv : GridView) (d : Droplet) (gv2 : GridView)
    (h : gv.insert d = some gv2) (k : DropletId) (hk : k ≠ d.id) :
    alookup gv2.droplets k = alookup gv.droplets k := by
  rw [insert_droplets gv d gv2 h, alookup_append]
  cases hl : alookup gv.droplets k with
  | some v => rfl
  | none => simp [alookup, Ne.symm hk]

/-- Inserting the two split outputs in sequence: both are retrievable
afterwards, and their volumes are `V/2 ∓ E`; the bounds on `E` carry to the
volumes. -/
theorem split_bounds_core (gv2 : GridView) (out0 out1 : DropletId) (loc dims : Location)
    (V E : ℚ) (gv' : GridView) (herr1 : -V ≤ E) (herr2 : E ≤ V)
    (hex : (gv2.insert (Droplet.new out0 (V / 2 - E) loc dims)).bind
        (fun gv3 => gv3.insert (Droplet.new out1 (V / 2 + E) loc dims)) = some gv') :
    ∃ d0 d1, alookup gv'.droplets out0 = some d0 ∧ alookup gv'.droplets out1 = some d1 ∧
      -V / 2 ≤ d0.volume ∧ d0.volume ≤ 3 * V / 2 ∧
      -V / 2 ≤ d1.volume ∧ d1.volume ≤ 3 * V / 2 := by
  rcases Option.bind_eq_some.mp hex with ⟨gv3, hj, hk⟩
  have h0 : alookup gv3.droplets out0 = some (Droplet.new out0 (V / 2 - E) loc dims) := by
    have h := insert_lookup_self gv2 _ gv3 hj
    rw [Droplet.new_id] at h
    exact h
  have habs : alookup gv3.droplets out1 = none := by
    have h := insert_id_absent gv3 _ gv' hk
    rw [Droplet.new_id] at h
    exact h
  have hne : out0 ≠ out1 := by
    intro he
    rw [he, habs] at h0
    cases h0
  have h1 : alookup gv'.droplets out1 = some (Droplet.new out1 (V / 2 + E) loc dims) := by
    have h := insert_lookup_self gv3 _ gv' hk
    rw [Droplet.new_id] at h
    exact h
  have h0' : alookup gv'.droplets out0 = some (Droplet.new out0 (V / 2 - E) loc dims) := by
    have h := insert_lookup_other gv3 _ gv' hk out0 (by rw [Droplet.new_id]; exact hne)
    exact h.trans h0
  refine ⟨_, _, h0', h1, ?_, ?_, ?_, ?_⟩
  · rw [Droplet.new_volume]
    linarith
  · rw [Droplet.new_volume]
    linarith
  · rw [Droplet.new_volume]
    linarith
  · rw [Droplet.new_volume]
    linarith

/-! Claim theorems. -/

/-- C8.  Determinism: two `GridView`s created with the same grid and the same
configured σ execute any action stream to identical droplet states.  Since the
split-noise rng is seeded from the fixed constant 0, its sample stream is the
same fixed function `sampleFn` of the configuration for both runs, and the
initial states coincide, so execution is a function of the inputs alone. -/
theorem C8_determinism (sampleFn : ℚ → Nat → ℚ) (grid : Grid) (opts : ErrorOptions)
    (acts : List Action) (gv1 gv2 : GridView)
    (h1 : gv1 = GridView.new grid opts) (h2 : gv2 = GridView.new grid opts) :
    (gv1.executeAll sampleFn acts).map GridView.droplets =
      (gv2.executeAll sampleFn acts).map GridView.droplets := by
  subst h1
  subst h2
  rfl

/-- Witness for C8 at a concrete grid, configuration and action stream. -/
theorem C8_determinism_witness :
    ((GridView.new grid7 { split_error_stdev := 0 }).executeAll (fun _ _ => 0)
        [Action.Tick]).map GridView.droplets =
      ((GridView.new grid7 { split_error_stdev := 0 }).executeAll (fun _ _ => 0)
        [Action.Tick]).map GridView.droplets :=
  C8_determinism (fun _ _ => 0) grid7 { split_error_stdev := 0 } [Action.Tick]
    (GridView.new grid7 { split_error_stdev := 0 })
    (GridView.new grid7 { split_error_stdev := 0 }) rfl rfl

/-- C9.  `Tick` is a pure barrier: when no collision is present it returns the
state unchanged, any successful `Tick` leaves the state unchanged, and it is
fatal exactly when `get_collision` reports a pair. -/
theorem C9_tick_frame (sampleFn : ℚ → Nat → ℚ) (gv : GridView) :
    (gv.get_collision = none → gv.execute sampleFn Action.Tick = some gv) ∧
    (∀ gv', gv.execute sampleFn Action.Tick = some gv' → gv' = gv) ∧
    (gv.execute sampleFn Action.Tick = none ↔ gv.get_collision ≠ none) := by
  cases h : gv.get_collision <;>
    simp [GridView.execute, h]

/-- Witness for C9: on a collision-free state, `Tick` returns it unchanged. -/
theorem C9_tick_frame_witness :
    gvOne.execute (fun _ _ => 0) Action.Tick = some gvOne :=
  (C9_tick_frame (fun _ _ => 0) gvOne).1 (by decide)

/-- C10.  A `Mix` whose two input ids coincide always fails: the first removal
takes the droplet out of the map, so the second removal of the same id panics,
even though the location equality it would later assert is trivially true. -/
theorem C10_mix_same_id (sampleFn : ℚ → Nat → ℚ) (gv : GridView) (i out : DropletId)
    (d : Droplet) (huniq : (gv.droplets.map Prod.fst).Nodup)
    (hd : alookup gv.droplets i = some d) :
    gv.execute sampleFn (Action.Mix i i out) = none := by
  cases h1 : aremove gv.droplets i with
  | none =>
    rw [alookup_eq_none_of_aremove gv.droplets i h1] at hd
    cases hd
  | some pr =>
    rcases pr with ⟨d1, rest⟩
    have h2 : alookup rest i = none :=
      alookup_none_of_aremove_nodup gv.droplets i d1 rest huniq h1
    have h3 : aremove rest i = none := aremove_eq_none_of_alookup rest i h2
    simp [GridView.execute, GridView.remove, h1, h3]

/-- Witness for C10 at a concrete one-droplet state. -/
theorem C10_mix_same_id_witness :
    gvOne.execute (fun _ _ => 0)
      (Action.Mix { id := 3, process_id := 0 } { id := 3, process_id := 0 }
        { id := 4, process_id := 0 }) = none :=
  C10_mix_same_id (fun _ _ => 0) gvOne { id := 3, process_id := 0 }
    { id := 4, process_id := 0 }
    { id := { id := 3, process_id := 0 }, location := { y := 0, x := 0 },
      dimensions := { y := 1, x := 1 }, volume := 2,
      destination := none, collision_group := 0 }
    (by decide) (by decide)

/-- C6.  `MoveDroplet` on a present droplet fails exactly when the Manhattan
distance to the target exceeds 1; otherwise it only rewrites that droplet's
location, and a move to the current location leaves the whole state
unchanged. -/
theorem C6_moveDroplet (sampleFn : ℚ → Nat → ℚ) (gv : GridView) (i : DropletId)
    (d : Droplet) (target : Location) (hd : alookup gv.droplets i = some d) :
    (gv.execute sampleFn (Action.MoveDroplet i target) = none ↔
      1 < d.location.distance_to target) ∧
    (d.location.distance_to target ≤ 1 →
      gv.execute sampleFn (Action.MoveDroplet i target) =
        some { gv with droplets := ainsert gv.droplets i { d with location := target } }) ∧
    gv.execute sampleFn (Action.MoveDroplet i d.location) = some gv := by
  refine ⟨?_, ?_, ?_⟩
  · simp only [GridView.execute, hd]
    by_cases hdist : d.location.distance_to target ≤ 1
    · simp only [if_pos hdist]
      constructor
      · intro hc
        cases hc
      · intro hc
        omega
    · simp only [if_neg hdist]
      constructor
      · intro _
        omega
      · intro _
        trivial
  · intro hdist
    simp [GridView.execute, hd, hdist]
  · have hzero : d.location.distance_to d.location ≤ 1 := by
      simp [Location.distance_to]
    have hself : ({ d with location := d.location } : Droplet) = d := by
      cases d
      rfl
    simp only [GridView.execute, hd, if_pos hzero, hself, ainsert_self gv.droplets i d hd]

/-- Witness for C6 at a concrete one-droplet state: the cardinal move
succeeds and rewrites only the location, and the zero-step move is the
identity. -/
theorem C6_moveDroplet_witness :
    (gvOne.execute (fun _ _ => 0) (Action.MoveDroplet dropOne.id { y := 0, x := 1 }) = none ↔
      1 < dropOne.location.distance_to { y := 0, x := 1 }) ∧
    (dropOne.location.distance_to { y := 0, x := 1 } ≤ 1 →
      gvOne.execute (fun _ _ => 0) (Action.MoveDroplet dropOne.id { y := 0, x := 1 }) =
        some gvOneMoved) ∧
    gvOne.execute (fun _ _ => 0) (Action.MoveDroplet dropOne.id dropOne.location) =
      some gvOne :=
  C6_moveDroplet (fun _ _ => 0) gvOne dropOne.id dropOne { y := 0, x := 1 } (by decide)

/-- C1 (counterexample to the claim as stated).  On a droplet of volume
`V = 4 ≥ 0` with σ = 100 configured and a sampled error of 10, the clamp
yields ε = 4, and the first output droplet is created with volume
`V/2 − ε = −2`, which does not lie in `[0, V]`.  The split is not rejected:
execution succeeds. -/
theorem C1_counterexample :
    (gvC1.execute (fun _ _ => 10)
        (Action.Split { id := 5, process_id := 0 } { id := 6, process_id := 0 }
          { id := 7, process_id := 0 })).bind
      (fun gv' => (alookup gv'.droplets { id := 6, process_id := 0 }).map Droplet.volume) =
      some (-2) ∧
    ¬ (0 ≤ (-2 : ℚ)) := by
  constructor
  · simp only [gvC1, dC1, GridView.execute, GridView.remove, GridView.insert, Droplet.new,
      aremove, alookup, Option.map_some', Option.some_bind]
    norm_num [min_def, max_def, alookup]
  · decide

/-- C1 (amended).  Executing `Split` on a present droplet of volume `V ≥ 0`
clamps the sampled error to `[-V, V]` rather than rejecting it, so both
output volumes lie in `[-V/2, 3V/2]` (not `[0, V]`: the clamp bound is the
full volume, not half of it). -/
theorem C1_split_clamped_bounds (sampleFn : ℚ → Nat → ℚ) (gv : GridView)
    (inp out0 out1 : DropletId) (d : Droplet) (gv' : GridView)
    (hin : alookup gv.droplets inp = some d) (hV : 0 ≤ d.volume)
    (hex : gv.execute sampleFn (Action.Split inp out0 out1) = some gv') :
    ∃ d0 d1, alookup gv'.droplets out0 = some d0 ∧ alookup gv'.droplets out1 = some d1 ∧
      -(d.volume) / 2 ≤ d0.volume ∧ d0.volume ≤ 3 * d.volume / 2 ∧
      -(d.volume) / 2 ≤ d1.volume ∧ d1.volume ≤ 3 * d.volume / 2 := by
  cases hrm : aremove gv.droplets inp with
  | none =>
    rw [alookup_eq_none_of_aremove gv.droplets inp hrm] at hin
    cases hin
  | some pr =>
    rcases pr with ⟨dd, rest⟩
    have hdd : dd = d := by
      have h1 := alookup_of_aremove gv.droplets inp dd rest hrm
      rw [hin] at h1
      exact (Option.some_inj.mp h1).symm
    subst hdd
    simp only [GridView.execute, GridView.remove, hrm, Option.map_some',
      Option.some_bind] at hex
    cases hσ : gv.split_error_stdev with
    | none =>
      simp only [hσ] at hex
      exact split_bounds_core _ out0 out1 dd.location _ dd.volume 0 gv'
        (by linarith) (by linarith) hex
    | some s =>
      simp only [hσ] at hex
      have h1 : -dd.volume ≤ max (min (sampleFn s gv.rngIndex) dd.volume) (-dd.volume) :=
        le_max_right _ _
      have h2 : max (min (sampleFn s gv.rngIndex) dd.volume) (-dd.volume) ≤ dd.volume :=
        max_le (min_le_right _ _) (by linarith)
      exact split_bounds_core _ out0 out1 dd.location _ dd.volume _ gv' h1 h2 hex

/-- Witness for the amended C1 at the concrete split of `gvC1`: both output
volumes (−2 and 6) lie in `[−V/2, 3V/2] = [−2, 6]` for `V = 4`. -/
theorem C1_split_clamped_bounds_witness :
    ∃ d0 d1,
      alookup gvC1res.droplets { id := 6, process_id := 0 } = some d0 ∧
      alookup gvC1res.droplets { id := 7, process_id := 0 } = some d1 ∧
      -(dC1.volume) / 2 ≤ d0.volume ∧ d0.volume ≤ 3 * dC1.volume / 2 ∧
      -(dC1.volume) / 2 ≤ d1.volume ∧ d1.volume ≤ 3 * dC1.volume / 2 :=
  C1_split_clamped_bounds (fun _ _ => 10) gvC1 { id := 5, process_id := 0 }
    { id := 6, process_id := 0 } { id := 7, process_id := 0 } dC1 gvC1res
    rfl (by norm_num [dC1])
    (by
      simp only [gvC1, dC1, gvC1res, GridView.execute, GridView.remove, GridView.insert,
        Droplet.new, aremove, alookup, Option.map_some', Option.some_bind]
      norm_num [min_def, max_def, alookup])

/-- Folding moves onto an accumulator equals appending the flat list. -/
theorem foldl_append_flatMap {α β : Type} (F : α → List β) :
    ∀ (l : List α) (acc : List β),
      l.foldl (fun a x => a ++ F x) acc = acc ++ l.flatMap F := by
  intro l
  induction l with
  | nil => intro acc; simp
  | cons x l ih =>
    intro acc
    simp only [List.foldl_cons, List.flatMap_cons, ih, List.append_assoc]

/-- The inner per-tick loop of `paths_to_actions` collects exactly one move
per droplet whose path is still live at index `i`. -/
theorem movesFoldl_eq_filterMap (i : Nat) :
    ∀ (paths : List (DropletId × Path)) (acc : List Action),
      paths.foldl
        (fun acts p =>
          if h : i < p.2.length then
            acts ++ [Action.MoveDroplet p.1 (p.2.get ⟨i, h⟩)]
          else acts) acc
      = acc ++ paths.filterMap
          (fun p =>
            if h : i < p.2.length then
              some (Action.MoveDroplet p.1 (p.2.get ⟨i, h⟩))
            else none) := by
  intro paths
  induction paths with
  | nil => intro acc; simp
  | cons p ps ih =>
    intro acc
    by_cases h : i < p.2.length
    · simp only [List.foldl_cons, List.filterMap_cons, dif_pos h, ih, List.append_assoc,
        List.singleton_append]
    · simp only [List.foldl_cons, List.filterMap_cons, dif_neg h, ih]

/-- C7.  The translated action stream is, tick by tick: for each index `i`
below the maximum path length, one `MoveDroplet` to `path[i]` for every
droplet whose path has length greater than `i` (droplets with shorter paths
contribute nothing), followed by exactly one `Tick`. -/
theorem C7_paths_to_actions (paths : List (DropletId × Path)) :
    paths_to_actions paths =
      (List.range (((paths.map (fun p => p.2.length)).max?).getD 0)).flatMap
        (fun i =>
          (paths.filterMap (fun p =>
            if h : i < p.2.length then
              some (Action.MoveDroplet p.1 (p.2.get ⟨i, h⟩))
            else none)) ++ [Action.Tick]) := by
  simp only [paths_to_actions]
  simp only [movesFoldl_eq_filterMap, List.append_assoc]
  rw [foldl_append_flatMap
    (fun i =>
      (paths.filterMap (fun p =>
        if h : i < p.2.length then
          some (Action.MoveDroplet p.1 (p.2.get ⟨i, h⟩))
        else none)) ++ [Action.Tick])
    (List.range (((paths.map (fun p => p.2.length)).max?).getD 0)) []]
  simp

/-- C2 (counterexample to the claim as stated).  After reserving the
single-cell path `[(0,0)]`, the cell `(0,0)` is occupied in `present` at tick
`max_time = 0`, yet the goal predicate accepts the node `((0,0), 0)` for a
droplet whose target is `(0,0)`: the code's final-collision scan stops
*before* `max_time`, so the node is not "free through `max_time`
inclusive". -/
theorem C2_counterexample :
    routeDoneFn avC2 dropC2 nodeC2 = true ∧
    nodeC2.time ≤ avC2.max_time ∧
    avC2.collides { location := nodeC2.location, time := avC2.max_time } = true := by
  refine ⟨?_, ?_, ?_⟩ <;> decide

/-- C2 (amended).  A node passes the goal predicate iff its location equals
the droplet's destination (its start location when it has none) and the cell
is free of `present` reservations for every tick `t` with
`node.time ≤ t < max_time` — the horizon tick `max_time` itself excluded. -/
theorem C2_goal_predicate (av : AvoidanceSet) (droplet : Droplet) (node : Node) :
    routeDoneFn av droplet node = true ↔
      (node.location =
        (match droplet.destination with
         | some x => x
         | none => droplet.location) ∧
       ∀ t, node.time ≤ t → t < av.max_time →
         av.collides { location := node.location, time := t } = false) := by
  simp only [routeDoneFn, Bool.and_eq_true, decide_eq_true_eq, Bool.not_eq_true',
    AvoidanceSet.would_finally_collide, List.any_eq_false, List.mem_range'_1]
  constructor
  · rintro ⟨h1, h2⟩
    refine ⟨h1, fun t ht1 ht2 => ?_⟩
    exact Bool.eq_false_iff.mpr (h2 t ⟨ht1, by omega⟩)
  · rintro ⟨h1, h2⟩
    refine ⟨h1, fun t ht => ?_⟩
    exact Bool.eq_false_iff.mp (h2 t ht.1 (by omega))

/-- The instrumented `route_many` recursion agrees with the source recursion
once the recorded horizons are discarded. -/
theorem route_manyGoT_fst (grid : Grid) (fuel num_cells : Nat) :
    ∀ (ds : List (DropletId × Droplet)) (av : AvoidanceSet) (max_t : Nat),
      (route_manyGoT grid fuel num_cells ds av max_t).map Prod.fst =
        route_manyGo grid fuel num_cells ds av max_t := by
  intro ds
  induction ds with
  | nil => intro av max_t; rfl
  | cons p rest ih =>
    rcases p with ⟨id, droplet⟩
    intro av max_t
    simp only [route_manyGoT, route_manyGo]
    cases route_one droplet (num_cells + max_t) (routeNextFn av grid)
        (routeDoneFn av droplet) fuel with
    | none => rfl
    | some path =>
      simp only [Option.some_bind]
      rw [← ih]
      simp only [Option.map_map]
      rfl

/-- `route_manyT` agrees with `route_many`. -/
theorem route_manyT_fst (droplets : List (DropletId × Droplet)) (grid : Grid) (fuel : Nat) :
    (route_manyT droplets grid fuel).map Prod.fst = route_many droplets grid fuel :=
  route_manyGoT_fst grid fuel grid.locationsCount droplets AvoidanceSet.default 0

/-- The horizons recorded by the instrumented recursion are `num_cells` plus
the running maximum of the path lengths routed so far. -/
theorem route_manyGoT_horizons (grid : Grid) (fuel num_cells : Nat) :
    ∀ (ds : List (DropletId × Droplet)) (av : AvoidanceSet) (max_t : Nat)
      (ps : List (DropletId × Path)) (hs : List Nat),
      route_manyGoT grid fuel num_cells ds av max_t = some (ps, hs) →
      hs = runningMaxHorizons num_cells max_t (ps.map (fun p => p.2.length)) := by
  intro ds
  induction ds with
  | nil =>
    intro av max_t ps hs h
    simp only [route_manyGoT, Option.some_inj, Prod.mk.injEq] at h
    rw [← h.1, ← h.2]
    rfl
  | cons p rest ih =>
    rcases p with ⟨id, droplet⟩
    intro av max_t ps hs h
    simp only [route_manyGoT] at h
    rcases Option.bind_eq_some.mp h with ⟨path, hro, h2⟩
    rcases Option.map_eq_some'.mp h2 with ⟨pr, hrec, heq⟩
    rcases pr with ⟨ps1, hs1⟩
    simp only [Prod.mk.injEq] at heq
    have ihh := ih _ _ ps1 hs1 hrec
    rw [← heq.1, ← heq.2]
    simp only [List.map_cons, runningMaxHorizons]
    rw [ihh]

/-- C3 (amended).  In a `route_many` attempt, the horizon passed to the
single-droplet search for each droplet equals the number of grid cells plus
the running *maximum* of the lengths of the previously routed paths in that
attempt (not their sum). -/
theorem C3_horizon_running_max (droplets : List (DropletId × Droplet)) (grid : Grid)
    (fuel : Nat) (ps : List (DropletId × Path)) (hs : List Nat)
    (h : route_manyT droplets grid fuel = some (ps, hs)) :
    hs = runningMaxHorizons grid.locationsCount 0 (ps.map (fun p => p.2.length)) :=
  route_manyGoT_horizons grid fuel grid.locationsCount droplets AvoidanceSet.default 0
    ps hs h

/-- Witness for the amended C3 at the three-droplet corridor instance:
the horizons are `[7, 8, 8]` for paths of lengths `[1, 1, 1]` on 7 cells. -/
theorem C3_horizon_running_max_witness :
    route_manyT dropletsC3 grid7 30 = some (psC3, [7, 8, 8]) ∧
    ([7, 8, 8] : List Nat) =
      runningMaxHorizons grid7.locationsCount 0 (psC3.map (fun p => p.2.length)) :=
  ⟨by decide,
   C3_horizon_running_max dropletsC3 grid7 30 psC3 [7, 8, 8] (by decide)⟩

/-- C3 (counterexample to the claim as stated).  On the three-droplet
corridor instance the recorded horizons are `[7, 8, 8]`, while
`num_cells + Σ prior_path_lengths` would give `[7, 8, 9]`: the third droplet's
horizon uses the maximum (1), not the sum (2), of the two prior path
lengths. -/
theorem C3_counterexample :
    (route_manyT dropletsC3 grid7 30).map
        (fun pr => (pr.2, sumHorizons grid7.locationsCount 0
          (pr.1.map (fun p => p.2.length)))) =
      some ([7, 8, 8], [7, 8, 9]) ∧
    ([7, 8, 8] : List Nat) ≠ [7, 8, 9] :=
  ⟨by decide, by decide⟩

/-- The instrumented retry loop agrees with the source loop once the attempt
count is discarded. -/
theorem routeGoCount_fst (grid : Grid)
    (shuffle : Nat → List (DropletId × Droplet) → List (DropletId × Droplet))
    (fuel : Nat) :
    ∀ (l : List Nat) (ds : List (DropletId × Droplet)),
      (routeGoCount grid shuffle fuel l ds).1 = routeGo grid shuffle fuel l ds := by
  intro l
  induction l with
  | nil => intro ds; rfl
  | cons i rest ih =>
    intro ds
    cases h : route_many (shuffle i ds) grid fuel with
    | some r => simp only [routeGoCount, routeGo, h]
    | none =>
      simp only [routeGoCount, routeGo, h]
      exact ih (shuffle i ds)

/-- `GridView.routeCount` agrees with `GridView.route`. -/
theorem routeCount_fst (gv : GridView)
    (shuffle : Nat → List (DropletId × Droplet) → List (DropletId × Droplet))
    (fuel : Nat) :
    (gv.routeCount shuffle fuel).1 = gv.route shuffle fuel :=
  routeGoCount_fst gv.grid shuffle fuel (List.range' 1 49) gv.droplets

theorem iterShuffle_succ
    (shuffle : Nat → List (DropletId × Droplet) → List (DropletId × Droplet))
    (ds : List (DropletId × Droplet)) (k : Nat) :
    iterShuffle shuffle ds (k + 1) = shuffle (k + 1) (iterShuffle shuffle ds k) := by
  unfold iterShuffle
  rw [List.range'_1_concat, List.foldl_append]
  simp [Nat.add_comm]

/-- The retry loop, started at index `k+1` on the order shuffled `k` times,
returns the first success among the remaining attempts. -/
theorem routeGo_findSome (grid : Grid)
    (shuffle : Nat → List (DropletId × Droplet) → List (DropletId × Droplet))
    (fuel : Nat) (ds : List (DropletId × Droplet)) :
    ∀ (n k : Nat),
      routeGo grid shuffle fuel (List.range' (k + 1) n) (iterShuffle shuffle ds k) =
        (List.range' (k + 1) n).findSome?
          (fun i => route_many (iterShuffle shuffle ds i) grid fuel) := by
  intro n
  induction n with
  | zero => intro k; rfl
  | succ n ih =>
    intro k
    rw [List.range'_succ, List.findSome?_cons]
    simp only [routeGo]
    rw [← iterShuffle_succ shuffle ds k]
    cases h : route_many (iterShuffle shuffle ds (k + 1)) grid fuel with
    | some r => simp only [h]
    | none =>
      simp only [h]
      have hrec := ih (k + 1)
      have harg : k + 1 + 1 = k + 2 := rfl
      rw [harg] at hrec
      exact hrec

/-- C4 (amended).  `GridView::route` makes up to **49** attempts (`for i in
1..50`), reshuffling the droplet order before each attempt (the `i`-th
attempt uses the composition of the first `i` shuffles), returns the first
successful attempt's path map, and returns no result exactly when all 49
attempts fail. -/
theorem C4_retry_loop (gv : GridView)
    (shuffle : Nat → List (DropletId × Droplet) → List (DropletId × Droplet))
    (fuel : Nat) :
    gv.route shuffle fuel =
      (List.range' 1 49).findSome?
        (fun i => route_many (iterShuffle shuffle gv.droplets i) gv.grid fuel) :=
  routeGo_findSome gv.grid shuffle fuel gv.droplets 49 0

/-- C4 (counterexample to the claim as stated).  On an instance where every
attempt fails (the droplet's destination is unreachable), the retry loop
makes exactly 49 `route_many` attempts before giving up, not 50. -/
theorem C4_counterexample :
    gvC4.routeCount (fun _ ds => ds) 30 = (none, 49) ∧ (49 : Nat) ≠ 50 :=
  ⟨by decide, by decide⟩

end Puddle
